import Mathlib

/-!
Verification development for the TDataFrame builder interface
(tree/treeplayer/inc/ROOT/TDataFrameInterface.hxx).

The shallow embedding models the builder surface of TDataFrameInterface:
graph nodes with children counts, the error kinds surfaced to callers, the
branch-name resolution helpers, the Range/Filter/Define/action booking
operations, and the parts of the execution semantics (event loop, action
folds, Snapshot output) that the claims need.  Operations whose bodies live
in headers not present in this tree (TDFNodes, TDFOperations, TDFUtils,
TActionResultProxy) are modelled from the specification and marked as such
in their doc comments; everything else is translated from
TDataFrameInterface.hxx directly.
-/

set_option autoImplicit false

namespace TDF

/-- Error kinds surfaced to callers (specification section 6). -/
inductive DFError where
  | invalidArgument
  | unsupported
  | missingColumnSpec
  | engineGone
  | duplicateColumn
  deriving DecidableEq

/-- Kinds of graph nodes (specification section 3). -/
inductive NodeKind where
  | source
  | filter
  | define
  | range
  | action
  deriving DecidableEq

/-- A graph node: its kind and the children count maintained by
IncrChildrenCount. -/
structure Node where
  kind : NodeKind
  childrenCount : Nat
  deriving DecidableEq

/-- The computation graph: the list of nodes owned by the engine. -/
structure Graph where
  nodes : List Node
  deriving DecidableEq

/-- Increment the children count of the node at index i, as
IncrChildrenCount does on the proxied node. -/
def bumpAt : List Node → Nat → List Node
  | [], _ => []
  | n :: ns, 0 => { n with childrenCount := n.childrenCount + 1 } :: ns
  | n :: ns, i + 1 => n :: bumpAt ns i

/-- Effect on the graph of a successful graph-extending call invoked on node
onNode: IncrChildrenCount on that node and booking of the new node. -/
def appendNode (g : Graph) (onNode : Nat) (k : NodeKind) : Graph :=
  ⟨bumpAt g.nodes onNode ++ [⟨k, 0⟩]⟩

/-- An initial graph holding only the Source node. -/
def gInit : Graph := ⟨[⟨NodeKind.source, 0⟩]⟩

/-- The empty branch name, standing for an omitted column. -/
def noName : String := ""

/-- A concrete branch name used by witnesses. -/
def colX : String := "x"

/-- A second concrete branch name used by witnesses. -/
def colPt : String := "pt"

/-- A concrete derived-column name used by witnesses. -/
def colD : String := "d"

/-- Modelled from the spec: ROOT::Internal::PickBranchNames (TDFUtils.hxx is
not under src).  Per section 4.1, when a user-supplied column list is shorter
than required the builder completes it from the default column list, and when
the default list is shorter than required construction fails with
MissingColumnSpec. -/
def pickBranchNames (nArgs : Nat) (bn defaults : List String) :
    Except DFError (List String) :=
  if bn.length = nArgs then .ok bn
  else if nArgs ≤ defaults.length then .ok (defaults.take nArgs)
  else .error .missingColumnSpec

/-- Mirrors GetDefaultBranchNames (src lines 983-1001): GetDataFrameChecked
first (throws when the weak reference to the engine has expired), then fail
when the default list is shorter than the number of expected branches, else
return the prefix of the default list. -/
def GetDefaultBranchNames (alive : Bool) (nExpected : Nat)
    (defaults : List String) : Except DFError (List String) :=
  if ¬ alive then .error .engineGone
  else if defaults.length < nExpected then .error .missingColumnSpec
  else .ok (defaults.take nExpected)

/-- Mirrors GetBranchNames (src lines 846-863): count the non-empty names of
the supplied list; when that count equals the number of needed branches the
supplied list is returned unchanged, otherwise the whole list is replaced by
the result of GetDefaultBranchNames. -/
def GetBranchNames (alive : Bool) (needed : Nat) (bl defaults : List String) :
    Except DFError (List String) :=
  if needed = (bl.filter (fun s => !s.isEmpty)).length then .ok bl
  else GetDefaultBranchNames alive needed defaults

/-- Mirrors CreateAction (src lines 942-953): GetDataFrameChecked, then
BuildAndBook (the action is booked) and IncrChildrenCount on the proxied
node. -/
def CreateAction (alive : Bool) (g : Graph) (onNode : Nat) :
    Except DFError Graph :=
  if ¬ alive then .error .engineGone
  else .ok (appendNode g onNode .action)

/-- Mirrors Filter (src lines 103-118): GetDataFrameChecked, then
PickBranchNames, then the filter node is booked and the children count of the
proxied node incremented. -/
def Filter (alive : Bool) (nArgs : Nat) (bn defaults : List String)
    (g : Graph) (onNode : Nat) : Except DFError Graph :=
  if ¬ alive then .error .engineGone
  else
    match pickBranchNames nArgs bn defaults with
    | .error e => .error e
    | .ok _ => .ok (appendNode g onNode .filter)

/-- Mirrors Define (src lines 191-206): GetDataFrameChecked, then
CheckTmpBranch (the new name must not collide with an existing branch), then
PickBranchNames, then booking. -/
def Define (alive : Bool) (name : String) (existingNames : List String)
    (nArgs : Nat) (bn defaults : List String) (g : Graph) (onNode : Nat) :
    Except DFError Graph :=
  if ¬ alive then .error .engineGone
  else if name ∈ existingNames then .error .duplicateColumn
  else
    match pickBranchNames nArgs bn defaults with
    | .error e => .error e
    | .ok _ => .ok (appendNode g onNode .define)

/-- Mirrors Range (src lines 285-301).  The argument check comes first:
stride equal to zero, or a non-zero stop below start, raises the
InvalidArgument kind.  The multi-slot check comes second: with implicit
multi-threading enabled the Unsupported kind is raised.  Only then is
GetDataFrameChecked called and the Range node booked. -/
def Range (start stop stride : Nat) (mtEnabled alive : Bool) (g : Graph)
    (onNode : Nat) : Except DFError Graph :=
  if stride = 0 ∨ (stop ≠ 0 ∧ stop < start) then .error .invalidArgument
  else if mtEnabled then .error .unsupported
  else if ¬ alive then .error .engineGone
  else .ok (appendNode g onNode .range)

/-- Mirrors the one-argument Range overload (src line 308):
Range(stop) = Range(0, stop, 1). -/
def RangeOne (stop : Nat) (mtEnabled alive : Bool) (g : Graph)
    (onNode : Nat) : Except DFError Graph :=
  Range 0 stop 1 mtEnabled alive g onNode

/-- Mirrors Count (src lines 414-424): GetDataFrameChecked, then the action
is booked and the children count incremented. -/
def Count (alive : Bool) (g : Graph) (onNode : Nat) : Except DFError Graph :=
  if ¬ alive then .error .engineGone
  else .ok (appendNode g onNode .action)

/-- Mirrors the graph effect of Reduce (src lines 393-407):
GetDataFrameChecked, then GetBranchNames for one branch, then booking and
IncrChildrenCount. -/
def ReduceBook (alive : Bool) (branchName : String) (defaults : List String)
    (g : Graph) (onNode : Nat) : Except DFError Graph :=
  if ¬ alive then .error .engineGone
  else
    match GetBranchNames alive 1 [branchName] defaults with
    | .error e => .error e
    | .ok _ => .ok (appendNode g onNode .action)

/-- Mirrors the graph effect of Take (src lines 434-446): same shape as
Reduce. -/
def TakeBook (alive : Bool) (branchName : String) (defaults : List String)
    (g : Graph) (onNode : Nat) : Except DFError Graph :=
  if ¬ alive then .error .engineGone
  else
    match GetBranchNames alive 1 [branchName] defaults with
    | .error e => .error e
    | .ok _ => .ok (appendNode g onNode .action)

/-- Mirrors the graph effect of Min (src lines 784-790): GetBranchNames for
one branch (this does not touch the engine when the name is provided), then
CreateAction. -/
def MinBook (branchName : String) (alive : Bool) (defaults : List String)
    (g : Graph) (onNode : Nat) : Except DFError Graph :=
  match GetBranchNames alive 1 [branchName] defaults with
  | .error e => .error e
  | .ok _ => CreateAction alive g onNode

/-- Mirrors the graph effect of Max (src lines 801-807). -/
def MaxBook (branchName : String) (alive : Bool) (defaults : List String)
    (g : Graph) (onNode : Nat) : Except DFError Graph :=
  match GetBranchNames alive 1 [branchName] defaults with
  | .error e => .error e
  | .ok _ => CreateAction alive g onNode

/-- Mirrors the graph effect of Mean (src lines 818-824). -/
def MeanBook (branchName : String) (alive : Bool) (defaults : List String)
    (g : Graph) (onNode : Nat) : Except DFError Graph :=
  match GetBranchNames alive 1 [branchName] defaults with
  | .error e => .error e
  | .ok _ => CreateAction alive g onNode

/-- Mirrors the graph effect of ForeachSlot (src lines 346-358):
GetDataFrameChecked, PickBranchNames over the function arity minus the slot
parameter, booking of the action and IncrChildrenCount (Run follows but does
not change the graph). -/
def ForeachSlotBook (alive : Bool) (nArgs : Nat) (bn defaults : List String)
    (g : Graph) (onNode : Nat) : Except DFError Graph :=
  if ¬ alive then .error .engineGone
  else
    match pickBranchNames nArgs bn defaults with
    | .error e => .error e
    | .ok _ => .ok (appendNode g onNode .action)

/-- Model of a one-dimensional histogram model: its x-axis limits and the
auto-extension flag set by SetCanExtendAllAxes. -/
structure HistModel where
  xmin : ℚ
  xmax : ℚ
  canExtendAllAxes : Bool
  deriving DecidableEq

/-- Mirrors Histo1D (src lines 462-471): GetBranchNames for the value branch,
then the model is cloned and, when its x-axis limits are degenerate (xmax
equal to xmin), SetCanExtendAllAxes is applied; finally CreateAction books
the action. -/
def Histo1D (m : HistModel) (vName : String) (alive : Bool)
    (defaults : List String) (g : Graph) (onNode : Nat) :
    Except DFError (Graph × HistModel) :=
  match GetBranchNames alive 1 [vName] defaults with
  | .error e => .error e
  | .ok _ =>
    let h := if m.xmax = m.xmin then { m with canExtendAllAxes := true } else m
    match CreateAction alive g onNode with
    | .error e => .error e
    | .ok g2 => .ok (g2, h)

/-- Graph effect of Histo1D (src lines 462-471): GetBranchNames for the
value branch, then CreateAction; the model cloning has no graph effect. -/
def Histo1DBook (vName : String) (alive : Bool) (defaults : List String)
    (g : Graph) (onNode : Nat) : Except DFError Graph :=
  match GetBranchNames alive 1 [vName] defaults with
  | .error e => .error e
  | .ok _ => CreateAction alive g onNode

/-- Mirrors Histo2D (src lines 525-534).  TDFV7Utils::Histo::HasAxisLimits is
not under src; modelled from the spec as the has_finite_limits bit of the
Aggregator capability (section 6).  The limits check precedes branch
resolution and booking, so on failure nothing is booked. -/
def Histo2D (hasAxisLimits : Bool) (names : List String) (alive : Bool)
    (defaults : List String) (g : Graph) (onNode : Nat) :
    Except DFError Graph :=
  if ¬ hasAxisLimits then .error .unsupported
  else
    match GetBranchNames alive 2 names defaults with
    | .error e => .error e
    | .ok _ => CreateAction alive g onNode

/-- Mirrors Histo3D (src lines 581-592): same shape as Histo2D with three
value branches. -/
def Histo3D (hasAxisLimits : Bool) (names : List String) (alive : Bool)
    (defaults : List String) (g : Graph) (onNode : Nat) :
    Except DFError Graph :=
  if ¬ hasAxisLimits then .error .unsupported
  else
    match GetBranchNames alive 3 names defaults with
    | .error e => .error e
    | .ok _ => CreateAction alive g onNode

/-- Mirrors Profile1D (src lines 639-649). -/
def Profile1D (hasAxisLimits : Bool) (names : List String) (alive : Bool)
    (defaults : List String) (g : Graph) (onNode : Nat) :
    Except DFError Graph :=
  if ¬ hasAxisLimits then .error .unsupported
  else
    match GetBranchNames alive 2 names defaults with
    | .error e => .error e
    | .ok _ => CreateAction alive g onNode

/-- Mirrors Profile2D (src lines 696-707). -/
def Profile2D (hasAxisLimits : Bool) (names : List String) (alive : Bool)
    (defaults : List String) (g : Graph) (onNode : Nat) :
    Except DFError Graph :=
  if ¬ hasAxisLimits then .error .unsupported
  else
    match GetBranchNames alive 3 names defaults with
    | .error e => .error e
    | .ok _ => CreateAction alive g onNode

/-- Mirrors Fill (src lines 755-763): the limits check, then CreateAction on
the supplied branch list directly (no default completion). -/
def Fill (hasAxisLimits : Bool) (alive : Bool) (g : Graph) (onNode : Nat) :
    Except DFError Graph :=
  if ¬ hasAxisLimits then .error .unsupported
  else CreateAction alive g onNode

/-! Execution semantics.  The event loop (TDataFrameImpl::Run, TDFNodes.hxx)
and the per-action operations (TDFOperations.hxx) are not under src; they are
modelled from the specification: a single sequential pass feeds every row
admitted by the filter chain, in ascending row order, to each booked action.
The seeds of the Min, Max and Mean accumulators are translated from src
lines 788, 805 and 822. -/

/-- Rows of the source admitted by the filter chain, in ascending order
(specification sections 4.2 and 8). -/
def admittedRows (N : Nat) (phi : Nat → Bool) : List Nat :=
  (List.range N).filter phi

/-- Values of column C over the admitted rows, in processing order. -/
def admittedValues (N : Nat) (phi : Nat → Bool) (C : Nat → ℚ) : List ℚ :=
  (admittedRows N phi).map C

/-- Behaviour of std::min on doubles: the smaller argument, the first on
ties. -/
def stdMin (a b : ℚ) : ℚ := if b < a then b else a

/-- Behaviour of std::max on doubles: the larger argument, the first on
ties. -/
def stdMax (a b : ℚ) : ℚ := if a < b then b else a

/-- Value of std::numeric_limits of double ::max(), the seed of the Min
accumulator (src line 788): the largest finite double. -/
def dblLimitMax : ℚ := (2 ^ 53 - 1) * 2 ^ 971

/-- Value of std::numeric_limits of double ::min(), the seed of the Max
accumulator (src line 805): the smallest positive normalized double, a
strictly positive number. -/
def dblLimitMin : ℚ := 1 / 2 ^ 1022

/-- Modelled from the spec: the Min action folds std::min over the admitted
values of the column, seeded from src line 788. -/
def minResult (N : Nat) (phi : Nat → Bool) (C : Nat → ℚ) : ℚ :=
  (admittedValues N phi C).foldl stdMin dblLimitMax

/-- Modelled from the spec: the Max action folds std::max over the admitted
values of the column, seeded from src line 805. -/
def maxResult (N : Nat) (phi : Nat → Bool) (C : Nat → ℚ) : ℚ :=
  (admittedValues N phi C).foldl stdMax dblLimitMin

/-- Modelled from the spec: the Mean action divides the sum of the admitted
values by their count (seed zero from src line 822). -/
def meanResult (N : Nat) (phi : Nat → Bool) (C : Nat → ℚ) : ℚ :=
  (admittedValues N phi C).sum / (admittedValues N phi C).length

/-- The columnar store written by Snapshot: the output rows, each one the
tuple of selected column values, and the declared output columns. -/
structure WrittenStore where
  rows : List (List ℚ)
  cols : List String
  deriving DecidableEq

/-- Index of the first column with the given name in the declared column
list of a store. -/
def colIndex (c : String) : List String → Option Nat
  | [] => none
  | x :: xs => if x = c then some 0 else (colIndex c xs).map (· + 1)

/-- Modelled from the spec: Snapshot (SnapshotImpl, src lines 1013-1060)
runs its row callback under the Foreach machinery, so under sequential mode
it appends one output row per admitted row, in ascending row order, each row
holding the values of the selected columns; the TTree writing machinery
itself is not under src. -/
def Snapshot (N : Nat) (phi : Nat → Bool) (cols : List String)
    (read : String → Nat → ℚ) : WrittenStore :=
  ⟨(admittedRows N phi).map (fun r => cols.map (fun c => read c r)), cols⟩

/-- Reading one cell of the written store back through the Column Reader
interface: look the column up by name, then index into the row. -/
def storeRead (st : WrittenStore) (c : String) (r : Nat) : ℚ :=
  match colIndex c st.cols with
  | some i => (st.rows.getD r []).getD i 0
  | none => 0

/-- Reading the written store back with no filters: for every row index of
the new Source, the tuple of its column values, in row order. -/
def readBackNoFilters (st : WrittenStore) : List (List ℚ) :=
  (List.range st.rows.length).map (fun r => st.cols.map (fun c => storeRead st c r))

/-- The action registry of the engine: booked-but-pending actions,
materialized actions, and whether the event loop has run. -/
structure Engine where
  pending : List Nat
  materialized : List Nat
  hasRun : Bool
  deriving DecidableEq

/-- Modelled from the spec: TDataFrameImpl::Run (not under src) executes the
single event loop, materializing every currently pending action
(specification section 4.2). -/
def Run (e : Engine) : Engine :=
  ⟨[], e.materialized ++ e.pending, true⟩

/-- Mirrors ForeachSlot (src lines 346-358) at the engine level: the action
is booked, then df->Run() is invoked before the call returns. -/
def ForeachSlotRun (a : Nat) (e : Engine) : Engine :=
  Run ⟨e.pending ++ [a], e.materialized, e.hasRun⟩

/-- Mirrors Foreach (src lines 321-328): it wraps the callable with a slot
parameter and delegates to ForeachSlot. -/
def ForeachRun (a : Nat) (e : Engine) : Engine :=
  ForeachSlotRun a e

/-- Mirrors Reduce with an initial value (src lines 393-407) together with
the spec-modelled execution: GetDataFrameChecked, GetBranchNames for one
branch, then the fold of the callable over the values of the resolved branch
at the admitted rows, seeded with initValue (ReduceOperation is not under
src). -/
def ReduceRunInit {α : Type} (f : α → α → α) (branchName : String)
    (initValue : α) (alive : Bool) (defaults : List String) (N : Nat)
    (phi : Nat → Bool) (read : String → Nat → α) : Except DFError α :=
  if ¬ alive then .error .engineGone
  else
    match GetBranchNames alive 1 [branchName] defaults with
    | .error e => .error e
    | .ok bl =>
      .ok ((admittedRows N phi).foldl (fun acc r => f acc (read (bl.headD default) r)) initValue)

/-- Mirrors the Reduce overload without an initial value (src lines
376-382): after a static assertion that the value type is
default-constructible (the Inhabited instance here), it delegates to the
other overload with a default-constructed seed. -/
def ReduceRun {α : Type} [Inhabited α] (f : α → α → α) (branchName : String)
    (alive : Bool) (defaults : List String) (N : Nat) (phi : Nat → Bool)
    (read : String → Nat → α) : Except DFError α :=
  ReduceRunInit f branchName default alive defaults N phi read

/-- Modelled from the spec: the admission logic of a Range node
(section 4.5) over the 0-based index, among the rows that reached it, of the
current row: admitted when the index is at least start, below stop (stop
equal to zero meaning unbounded), and congruent to start modulo stride. -/
def rangeAdmits (start stop stride seen : Nat) : Bool :=
  start ≤ seen && (stop = 0 || seen < stop) && (seen - start) % stride = 0

/-- Mirrors the dereference of a lazy action result.  TActionResultProxy.hxx
is not under src; modelled from the spec (section 4.8): when the weak
reference to the engine has expired the dereference fails with EngineGone,
else the stored value is returned. -/
def derefResult {α : Type} (alive : Bool) (stored : α) : Except DFError α :=
  if alive then .ok stored else .error .engineGone

/-- The graph-extending builder calls, as data: one constructor per builder
operation covered by the claims. -/
inductive BuilderOp where
  | filterOp (nArgs : Nat) (bn : List String)
  | defineOp (name : String) (existingNames : List String) (nArgs : Nat) (bn : List String)
  | rangeOp (start stop stride : Nat)
  | countOp
  | reduceOp (branchName : String)
  | takeOp (branchName : String)
  | minOp (branchName : String)
  | maxOp (branchName : String)
  | meanOp (branchName : String)
  | foreachOp (nArgs : Nat) (bn : List String)
  | histo1DOp (m : HistModel) (vName : String)
  | histo2DOp (hasAxisLimits : Bool) (names : List String)
  | histo3DOp (hasAxisLimits : Bool) (names : List String)
  | profile1DOp (hasAxisLimits : Bool) (names : List String)
  | profile2DOp (hasAxisLimits : Bool) (names : List String)
  | fillOp (hasAxisLimits : Bool)

/-- The builder state a call runs against: engine liveness, the implicit
multi-threading flag, and the default branch list of the Source. -/
structure BuildCtx where
  alive : Bool
  mtEnabled : Bool
  defaults : List String

/-- Dispatch of a builder operation to its model, returning the new graph on
success. -/
def applyOp : BuilderOp → BuildCtx → Graph → Nat → Except DFError Graph
  | .filterOp nArgs bn, ctx, g, i => Filter ctx.alive nArgs bn ctx.defaults g i
  | .defineOp name ex nArgs bn, ctx, g, i =>
      Define ctx.alive name ex nArgs bn ctx.defaults g i
  | .rangeOp start stop stride, ctx, g, i =>
      Range start stop stride ctx.mtEnabled ctx.alive g i
  | .countOp, ctx, g, i => Count ctx.alive g i
  | .reduceOp bn, ctx, g, i => ReduceBook ctx.alive bn ctx.defaults g i
  | .takeOp bn, ctx, g, i => TakeBook ctx.alive bn ctx.defaults g i
  | .minOp bn, ctx, g, i => MinBook bn ctx.alive ctx.defaults g i
  | .maxOp bn, ctx, g, i => MaxBook bn ctx.alive ctx.defaults g i
  | .meanOp bn, ctx, g, i => MeanBook bn ctx.alive ctx.defaults g i
  | .foreachOp nArgs bn, ctx, g, i =>
      ForeachSlotBook ctx.alive nArgs bn ctx.defaults g i
  | .histo1DOp _ vName, ctx, g, i =>
      Histo1DBook vName ctx.alive ctx.defaults g i
  | .histo2DOp hl names, ctx, g, i => Histo2D hl names ctx.alive ctx.defaults g i
  | .histo3DOp hl names, ctx, g, i => Histo3D hl names ctx.alive ctx.defaults g i
  | .profile1DOp hl names, ctx, g, i =>
      Profile1D hl names ctx.alive ctx.defaults g i
  | .profile2DOp hl names, ctx, g, i =>
      Profile2D hl names ctx.alive ctx.defaults g i
  | .fillOp hl, ctx, g, i => Fill hl ctx.alive g i

/-! Helper lemmas. -/

theorem bumpAt_getElem_self : ∀ (l : List Node) (i : Nat) (n : Node),
    l[i]? = some n →
    (bumpAt l i)[i]? = some { n with childrenCount := n.childrenCount + 1 }
  | [], i, n, h => by simp at h
  | x :: xs, 0, n, h => by
    simp at h
    subst h
    simp [bumpAt]
  | x :: xs, i + 1, n, h => by
    simpa [bumpAt] using bumpAt_getElem_self xs i n (by simpa using h)

theorem bumpAt_getElem_ne : ∀ (l : List Node) (i j : Nat), j ≠ i →
    (bumpAt l i)[j]? = l[j]?
  | [], _, _, _ => by simp [bumpAt]
  | x :: xs, 0, 0, h => absurd rfl h
  | x :: xs, 0, j + 1, _ => by simp [bumpAt]
  | x :: xs, i + 1, 0, _ => by simp [bumpAt]
  | x :: xs, i + 1, j + 1, h => by
    simpa [bumpAt] using bumpAt_getElem_ne xs i j (fun hji => h (by omega))

theorem bumpAt_length : ∀ (l : List Node) (i : Nat),
    (bumpAt l i).length = l.length
  | [], _ => rfl
  | _ :: xs, 0 => by simp [bumpAt]
  | _ :: xs, i + 1 => by simp [bumpAt, bumpAt_length xs i]

/-- Effect of appendNode on the node it was invoked on and on every other
pre-existing node. -/
theorem appendNode_spec (g : Graph) (i : Nat) (k : NodeKind) (n : Node)
    (h : g.nodes[i]? = some n) :
    (appendNode g i k).nodes[i]? =
        some { n with childrenCount := n.childrenCount + 1 } ∧
      ∀ j, j ≠ i → j < g.nodes.length → (appendNode g i k).nodes[j]? = g.nodes[j]? := by
  have hi : i < g.nodes.length := by
    by_contra hge
    simp [List.getElem?_eq_none (Nat.le_of_not_lt hge)] at h
  constructor
  · have hlt : i < (bumpAt g.nodes i).length := by rw [bumpAt_length]; exact hi
    show (bumpAt g.nodes i ++ [(⟨k, 0⟩ : Node)])[i]? = _
    rw [List.getElem?_append, if_pos hlt]
    exact bumpAt_getElem_self g.nodes i n h
  · intro j hji hj
    have hlt : j < (bumpAt g.nodes i).length := by rw [bumpAt_length]; exact hj
    show (bumpAt g.nodes i ++ [(⟨k, 0⟩ : Node)])[j]? = _
    rw [List.getElem?_append, if_pos hlt]
    exact bumpAt_getElem_ne g.nodes i j hji

theorem range_map_getD {α : Type} (d : α) :
    ∀ l : List α, (List.range l.length).map (fun i => l.getD i d) = l
  | [] => rfl
  | x :: xs => by
    rw [List.length_cons, List.range_succ_eq_map, List.map_cons, List.map_map]
    have hcomp : ((fun i => (x :: xs).getD i d) ∘ Nat.succ) =
        fun i => xs.getD i d := by
      funext i
      rfl
    rw [hcomp, range_map_getD d xs]
    rfl

theorem colIndex_map_getD {α : Type} (d : α) :
    ∀ (cols : List String) (c : String) (f : String → α), c ∈ cols →
    ∃ i, colIndex c cols = some i ∧ (cols.map f).getD i d = f c
  | [], c, f, h => absurd h (List.not_mem_nil c)
  | x :: xs, c, f, h => by
    by_cases hx : x = c
    · exact ⟨0, by simp [colIndex, hx], by simp [hx]⟩
    · have hmem : c ∈ xs := by
        rcases List.mem_cons.mp h with h1 | h1
        · exact absurd h1.symm hx
        · exact h1
      obtain ⟨i, hi, hv⟩ := colIndex_map_getD d xs c f hmem
      exact ⟨i + 1, by simp [colIndex, hx, hi], by simpa using hv⟩

theorem map_storeRead (rows : List (List ℚ)) (cols : List String) (r : Nat)
    (f : String → ℚ) (hr : rows.getD r [] = cols.map f) :
    cols.map (fun c => storeRead ⟨rows, cols⟩ c r) = rows.getD r [] := by
  rw [hr]
  refine List.map_congr_left (fun c hc => ?_)
  obtain ⟨i, hi, hv⟩ := colIndex_map_getD (0 : ℚ) cols c f hc
  simp only [storeRead, hi, hr]
  exact hv

/-! Claim theorems. -/

/-- C1: evaluation of the code at the failing input.  The claim states that
the Max action over a column below a filter chain returns the maximum of the
admitted values, in particular when every admitted value is negative.  The
Max accumulator is seeded (src line 805) with
std::numeric_limits of double ::min(), the smallest positive double, instead
of the lowest double: over a one-row source whose only admitted value is -1,
the Max action returns that strictly positive seed rather than -1. -/
theorem c1_max_seeded_with_positive_min :
    maxResult 1 (fun _ => true) (fun _ => (-1 : ℚ)) = dblLimitMin ∧
      (0 : ℚ) < dblLimitMin ∧
      maxResult 1 (fun _ => true) (fun _ => (-1 : ℚ)) ≠ (-1 : ℚ) := by
  refine ⟨?_, by norm_num [dblLimitMin], ?_⟩
  · show List.foldl stdMax dblLimitMin (admittedValues 1 (fun _ => true) (fun _ => (-1 : ℚ))) = dblLimitMin
    have hvals : admittedValues 1 (fun _ => true) (fun _ => (-1 : ℚ)) = [-1] := rfl
    rw [hvals]
    show stdMax dblLimitMin (-1) = dblLimitMin
    rw [stdMax, if_neg (by norm_num [dblLimitMin])]
  · intro h
    have h2 : stdMax dblLimitMin (-1) = (-1 : ℚ) := h
    rw [stdMax, if_neg (by norm_num [dblLimitMin])] at h2
    exact absurd h2 (by norm_num [dblLimitMin])

/-- C2: Snapshot round trip.  Snapshot over a graph with filter chain phi
writes exactly the admitted rows, in order, and reading the Source bound to
the written store back with no filters yields exactly the tuples of the
selected column values of the admitted rows, in the same order, under
sequential mode. -/
theorem c2_snapshot_roundtrip (N : Nat) (phi : Nat → Bool)
    (cols : List String) (read : String → Nat → ℚ) :
    readBackNoFilters (Snapshot N phi cols read) =
      (admittedRows N phi).map (fun r => cols.map (fun c => read c r)) := by
  set R := (admittedRows N phi).map (fun r => cols.map (fun c => read c r)) with hR
  show (List.range R.length).map (fun r => cols.map (fun c => storeRead ⟨R, cols⟩ c r)) = R
  have h1 : ∀ r ∈ List.range R.length,
      cols.map (fun c => storeRead ⟨R, cols⟩ c r) = R.getD r [] := by
    intro r hr
    have hlt : r < R.length := List.mem_range.mp hr
    have hlen : r < (admittedRows N phi).length := by
      simpa [hR] using hlt
    refine map_storeRead R cols r
      (fun c => read c ((admittedRows N phi).get ⟨r, hlen⟩)) ?_
    rw [List.getD_eq_getElem R [] hlt]
    simp [hR]
  calc (List.range R.length).map (fun r => cols.map (fun c => storeRead ⟨R, cols⟩ c r))
      = (List.range R.length).map (fun r => R.getD r []) := List.map_congr_left h1
    _ = R := range_map_getD [] R

/-- C2 witness: a concrete Snapshot of one column over three rows with the
middle row filtered out reads back as the two admitted rows in order. -/
theorem c2_snapshot_roundtrip_witness :
    readBackNoFilters
        (Snapshot 3 (fun r => decide (r ≠ 1)) [colX] (fun _ r => (r : ℚ))) =
      [[(0 : ℚ)], [(2 : ℚ)]] := by
  have h := c2_snapshot_roundtrip 3 (fun r => decide (r ≠ 1)) [colX]
    (fun _ r => (r : ℚ))
  rw [h]
  decide

/-- C3 counterexample: the claim predicts that a Range built while
multi-slot execution is enabled fails with the Unsupported kind, but with
stride zero and multi-slot enabled the code raises InvalidArgument, for the
argument check precedes the multi-threading check. -/
theorem c3_invalid_args_precede_unsupported :
    Range 0 0 0 true true gInit 0 = .error .invalidArgument ∧
      Range 0 0 0 true true gInit 0 ≠ .error .unsupported := by
  refine ⟨rfl, fun h => ?_⟩
  have h2 : (Except.error DFError.invalidArgument : Except DFError Graph) =
      .error .unsupported := by
    rw [← h]
    rfl
  exact absurd (Except.error.inj h2) (by decide)

/-- C3 (amended): with the engine alive, Range fails with InvalidArgument
exactly when stride is zero or stop is non-zero and below start; when the
arguments are valid it fails with Unsupported exactly when multi-slot
execution is enabled; in all remaining cases it appends one Range node to
the graph. -/
theorem c3_range_construction (start stop stride : Nat) (mt : Bool)
    (g : Graph) (i : Nat) :
    (Range start stop stride mt true g i = .error .invalidArgument ↔
      stride = 0 ∨ (stop ≠ 0 ∧ stop < start)) ∧
    (¬(stride = 0 ∨ (stop ≠ 0 ∧ stop < start)) → mt = true →
      Range start stop stride mt true g i = .error .unsupported) ∧
    (¬(stride = 0 ∨ (stop ≠ 0 ∧ stop < start)) → mt = false →
      Range start stop stride mt true g i = .ok (appendNode g i .range)) := by
  unfold Range
  by_cases hbad : stride = 0 ∨ (stop ≠ 0 ∧ stop < start)
  · simp [hbad]
  · cases mt <;> simp [hbad]

/-- C3 witness: valid arguments without multi-threading append the Range
node, and stop below start with non-zero stop raises InvalidArgument. -/
theorem c3_range_construction_witness :
    Range 2 10 3 false true gInit 0 = .ok (appendNode gInit 0 .range) ∧
      Range 7 4 1 false true gInit 0 = .error .invalidArgument := by
  constructor
  · exact (c3_range_construction 2 10 3 false gInit 0).2.2 (by decide) rfl
  · exact (c3_range_construction 7 4 1 false gInit 0).1.mpr (by decide)

/-- C4 counterexample: the claim states that a user-supplied list with fewer
than the needed number of names is completed from the default list while the
supplied names are kept.  With two branches needed, the supplied list
x-then-empty and the default list a-then-b, GetBranchNames returns the two
default names: the supplied name x is discarded, where the claim predicts it
kept in first position. -/
theorem c4_supplied_names_discarded :
    GetBranchNames true 2 ["x", ""] ["a", "b"] = .ok ["a", "b"] ∧
      GetBranchNames true 2 ["x", ""] ["a", "b"] ≠ .ok ["x", "b"] := by
  refine ⟨rfl, fun h => ?_⟩
  have h2 : (Except.ok ["a", "b"] : Except DFError (List String)) =
      .ok ["x", "b"] := by
    rw [← h]
    rfl
  exact absurd (Except.ok.inj h2) (by decide)

/-- C4 (amended): when the user-supplied column list carries fewer non-empty
names than the k names an operation needs, the builder discards the supplied
names and uses the first k names of the default column list of the Source;
when the default list itself has fewer than k names, the operation fails
with the MissingColumnSpec kind and no node or action is booked. -/
theorem c4_default_branch_completion (needed : Nat) (bl defaults : List String)
    (g : Graph) (i : Nat) (bn : String)
    (h : (bl.filter (fun s => !s.isEmpty)).length ≠ needed) :
    (needed ≤ defaults.length →
      GetBranchNames true needed bl defaults = .ok (defaults.take needed)) ∧
    (defaults.length < needed →
      GetBranchNames true needed bl defaults = .error .missingColumnSpec) ∧
    (bn.isEmpty = true → defaults = [] →
      MinBook bn true defaults g i = .error .missingColumnSpec) := by
  refine ⟨?_, ?_, ?_⟩
  · intro hle
    simp [GetBranchNames, Ne.symm h, GetDefaultBranchNames, Nat.not_lt.mpr hle]
  · intro hlt
    simp [GetBranchNames, Ne.symm h, GetDefaultBranchNames, hlt]
  · intro hbn hdef
    subst hdef
    simp [MinBook, GetBranchNames, hbn, GetDefaultBranchNames]

/-- C4 witness: with two names needed, a supplied list holding one non-empty
name is replaced by the first two default names; with an empty default list
the same call fails with MissingColumnSpec, and a Min booking with an empty
branch name and no defaults fails the same way without booking. -/
theorem c4_default_branch_completion_witness :
    GetBranchNames true 2 ["x", ""] ["a", "b", "c"] = .ok ["a", "b"] ∧
      GetBranchNames true 2 ["x", ""] [] = .error .missingColumnSpec ∧
      MinBook noName true [] gInit 0 = .error .missingColumnSpec := by
  refine ⟨?_, ?_, ?_⟩
  · exact (c4_default_branch_completion 2 ["x", ""] ["a", "b", "c"] gInit 0 noName
      (by decide)).1 (by decide)
  · exact (c4_default_branch_completion 2 ["x", ""] [] gInit 0 noName
      (by decide)).2.1 (by decide)
  · exact (c4_default_branch_completion 1 [noName] [] gInit 0 noName
      (by decide)).2.2 rfl rfl

/-- C5: Histo1D on a model with degenerate x-axis limits succeeds, books the
action and marks the cloned model as axis auto-extendable, whereas Histo2D,
Histo3D, Profile1D, Profile2D and Fill on a model without finite axis limits
fail with the Unsupported kind before anything is booked. -/
theorem c5_histo_axis_limits (m : HistModel) (vName : String)
    (defaults names : List String) (g : Graph) (i : Nat) (hl : Bool)
    (hdeg : m.xmax = m.xmin) (hv : vName.isEmpty = false) (hnl : hl = false) :
    Histo1D m vName true defaults g i =
        .ok (appendNode g i .action, { m with canExtendAllAxes := true }) ∧
    Histo2D hl names true defaults g i = .error .unsupported ∧
    Histo3D hl names true defaults g i = .error .unsupported ∧
    Profile1D hl names true defaults g i = .error .unsupported ∧
    Profile2D hl names true defaults g i = .error .unsupported ∧
    Fill hl true g i = .error .unsupported := by
  subst hnl
  refine ⟨?_, by simp [Histo2D], by simp [Histo3D], by simp [Profile1D],
    by simp [Profile2D], by simp [Fill]⟩
  simp [Histo1D, GetBranchNames, hv, CreateAction, hdeg]

/-- C5 witness: a degenerate one-dimensional model is booked with the
auto-extension flag set, and the limit-less higher-dimensional models are
rejected with Unsupported. -/
theorem c5_histo_axis_limits_witness :
    Histo1D ⟨0, 0, false⟩ colPt true [] gInit 0 =
        .ok (appendNode gInit 0 .action, ⟨0, 0, true⟩) ∧
      Histo2D false ["a", "b"] true [] gInit 0 = .error .unsupported ∧
      Fill false true gInit 0 = .error .unsupported := by
  have h := c5_histo_axis_limits ⟨0, 0, false⟩ colPt [] ["a", "b"] gInit 0 false
    rfl rfl rfl
  exact ⟨h.1, h.2.1, h.2.2.2.2.2⟩

/-- C6: Foreach and ForeachSlot are instant actions: the call books the
per-row action and triggers the single event loop before returning, so on
return the loop has run, no action is left pending, and every action pending
at the moment of the call, the new one included, has been materialized. -/
theorem c6_foreach_instant (a : Nat) (e : Engine) :
    (ForeachRun a e).hasRun = true ∧
    (ForeachSlotRun a e).hasRun = true ∧
    (ForeachRun a e).pending = [] ∧
    a ∈ (ForeachRun a e).materialized ∧
    (∀ b, b ∈ e.pending → b ∈ (ForeachRun a e).materialized) := by
  refine ⟨rfl, rfl, rfl, ?_, ?_⟩
  · simp [ForeachRun, ForeachSlotRun, Run]
  · intro b hb
    simp [ForeachRun, ForeachSlotRun, Run]
    exact Or.inr (Or.inl hb)

/-- C6 witness: invoking Foreach on an engine with one previously booked
lazy action materializes that action together with the new one. -/
theorem c6_foreach_instant_witness :
    7 ∈ (ForeachRun 3 ⟨[7], [], false⟩).materialized ∧
      3 ∈ (ForeachRun 3 ⟨[7], [], false⟩).materialized := by
  have h := c6_foreach_instant 3 ⟨[7], [], false⟩
  exact ⟨h.2.2.2.2 7 (by decide), h.2.2.2.1⟩

/-- C7: the Reduce overload without an initial value produces, on every
input, the same result as the overload with an initial value called with the
default-constructed value of the branch type; the overload exists only for
default-constructible types, modelled by the Inhabited instance it
requires. -/
theorem c7_reduce_default_init {α : Type} [Inhabited α] (f : α → α → α)
    (branchName : String) (alive : Bool) (defaults : List String) (N : Nat)
    (phi : Nat → Bool) (read : String → Nat → α) :
    ReduceRun f branchName alive defaults N phi read =
      ReduceRunInit f branchName (default : α) alive defaults N phi read := rfl

/-- C7 witness: a concrete sum reduction without an initial value equals the
same reduction seeded with the default-constructed rational, zero. -/
theorem c7_reduce_default_init_witness :
    ReduceRun (fun a b => a + b) colX true [] 2 (fun _ => true)
        (fun _ r => (r : ℚ)) =
      ReduceRunInit (fun a b => a + b) colX ((0 : ℚ)) true [] 2 (fun _ => true)
        (fun _ r => (r : ℚ)) :=
  c7_reduce_default_init (fun a b => a + b) colX true [] 2 (fun _ => true)
    (fun _ r => (r : ℚ))

/-- C8 counterexample: the claim predicts that every builder operation
invoked after the engine has been released fails with the EngineGone kind;
but Range performs its argument check before GetDataFrameChecked, so with
stride zero and a released engine it fails with InvalidArgument instead. -/
theorem c8_dead_engine_invalid_range :
    Range 0 0 0 false false gInit 0 = .error .invalidArgument ∧
      Range 0 0 0 false false gInit 0 ≠ .error .engineGone := by
  refine ⟨rfl, fun h => ?_⟩
  have h2 : (Except.error DFError.invalidArgument : Except DFError Graph) =
      .error .engineGone := by
    rw [← h]
    rfl
  exact absurd (Except.error.inj h2) (by decide)

/-- C8 (amended): every modelled builder or result operation invoked after
the engine has been released fails rather than proceeding, and no graph
mutation or run occurs; the kind is EngineGone whenever the preliminary
argument checks of the operation pass (Range with invalid arguments fails
with InvalidArgument first). -/
theorem c8_engine_gone (nArgs : Nat) (bn defaults existingNames : List String)
    (name bnm : String) (g : Graph) (i start stop stride : Nat) (v : ℚ)
    (hbnm : bnm.isEmpty = false)
    (hargs : ¬(stride = 0 ∨ (stop ≠ 0 ∧ stop < start))) :
    Filter false nArgs bn defaults g i = .error .engineGone ∧
    Define false name existingNames nArgs bn defaults g i = .error .engineGone ∧
    Count false g i = .error .engineGone ∧
    ReduceBook false bnm defaults g i = .error .engineGone ∧
    TakeBook false bnm defaults g i = .error .engineGone ∧
    ForeachSlotBook false nArgs bn defaults g i = .error .engineGone ∧
    MinBook bnm false defaults g i = .error .engineGone ∧
    MaxBook bnm false defaults g i = .error .engineGone ∧
    MeanBook bnm false defaults g i = .error .engineGone ∧
    Range start stop stride false false g i = .error .engineGone ∧
    derefResult false v = .error .engineGone := by
  refine ⟨by simp [Filter], by simp [Define], by simp [Count],
    by simp [ReduceBook], by simp [TakeBook], by simp [ForeachSlotBook],
    ?_, ?_, ?_, ?_, by simp [derefResult]⟩
  · simp [MinBook, GetBranchNames, hbnm, CreateAction]
  · simp [MaxBook, GetBranchNames, hbnm, CreateAction]
  · simp [MeanBook, GetBranchNames, hbnm, CreateAction]
  · simp [Range, hargs]

/-- C8 witness: with the engine released, a Filter call, a Min booking with
a provided branch name, a valid Range call and a lazy-result dereference all
fail with EngineGone. -/
theorem c8_engine_gone_witness :
    Filter false 1 ["x"] [] gInit 0 = .error .engineGone ∧
      MinBook colX false [] gInit 0 = .error .engineGone ∧
      Range 0 5 1 false false gInit 0 = .error .engineGone ∧
      derefResult false (3 : ℚ) = .error .engineGone := by
  have h := c8_engine_gone 1 ["x"] [] [] colD colX gInit 0 0 5 1 (3 : ℚ)
    rfl (by decide)
  exact ⟨h.1, h.2.2.2.2.2.2.1, h.2.2.2.2.2.2.2.2.2.1, h.2.2.2.2.2.2.2.2.2.2⟩

/-- C9: the one-argument Range overload with a stop value behaves exactly as
the three-argument form with start zero and stride one, including all
construction-time failure conditions, and the resulting gate admits exactly
the first stop rows reaching it, every row when stop is zero. -/
theorem c9_range_one_arg (stop : Nat) (mt alive : Bool) (g : Graph) (i : Nat)
    (seen : Nat) :
    RangeOne stop mt alive g i = Range 0 stop 1 mt alive g i ∧
      (rangeAdmits 0 stop 1 seen = true ↔ (stop = 0 ∨ seen < stop)) := by
  refine ⟨rfl, ?_⟩
  simp [rangeAdmits, Nat.mod_one]

/-- C9 witness: with stop five the one-argument overload equals the
three-argument form, and the gate admits the fourth row reaching it. -/
theorem c9_range_one_arg_witness :
    RangeOne 5 false true gInit 0 = Range 0 5 1 false true gInit 0 ∧
      rangeAdmits 0 5 1 3 = true := by
  have h := c9_range_one_arg 5 false true gInit 0 3
  exact ⟨h.1, h.2.mpr (Or.inr (by decide))⟩

/-- C10: every graph-extending builder call that succeeds, a Filter, Define
or Range node as well as the booking of any action, increments the children
count of exactly the node it was invoked on by one and leaves the children
count of every other existing node unchanged. -/
theorem c10_children_count (op : BuilderOp) (ctx : BuildCtx) (g : Graph)
    (i : Nat) (gNew : Graph) (n : Node) (hok : applyOp op ctx g i = .ok gNew)
    (hn : g.nodes[i]? = some n) :
    gNew.nodes[i]? = some { n with childrenCount := n.childrenCount + 1 } ∧
      ∀ j, j ≠ i → j < g.nodes.length → gNew.nodes[j]? = g.nodes[j]? := by
  suffices h : ∃ k, gNew = appendNode g i k by
    obtain ⟨k, rfl⟩ := h
    exact appendNode_spec g i k n hn
  cases op <;>
    simp only [applyOp, Filter, Define, Range, Count, ReduceBook, TakeBook,
      MinBook, MaxBook, MeanBook, ForeachSlotBook, Histo1DBook, Histo2D,
      Histo3D, Profile1D, Profile2D, Fill, CreateAction] at hok <;>
    repeat' split at hok
  all_goals
    first
    | exact Except.noConfusion hok
    | exact ⟨_, (Except.ok.inj hok).symm⟩

/-- C10 witness: a successful Count booking on the Source node of the
initial graph bumps its children count and changes no other node. -/
theorem c10_children_count_witness :
    (appendNode gInit 0 .action).nodes[0]? =
      some { kind := NodeKind.source, childrenCount := 1 } := by
  have h := c10_children_count BuilderOp.countOp ⟨true, false, []⟩ gInit 0
    (appendNode gInit 0 .action) ⟨NodeKind.source, 0⟩ rfl rfl
  exact h.1

end TDF
